import Mathlib

/-!
# The sqlite record store of downloadkubernetes

A shallow embedding of `models/stores/sqlite/db.go`.  The storage layer
(`database/sql` and the driver behind it) is an oracle whose answers may
depend on everything that happened before; every operation threads a `World`
that records the calls it issues to that layer, with their outcome, and the
row cursors that are currently open.
-/

namespace Sqlite

/-! ## Errors -/

/-- An error value reported by the storage layer. -/
structure DriverError where
  msg : String
deriving DecidableEq, Repr

/-- Go error values seen by this package: storage-layer errors, the wrapper
built by `errors.WithStack`, and the fresh value built by `errors.Errorf`
(stack traces are not represented). -/
inductive GoError where
  | driver (e : DriverError)
  | withStack (inner : GoError)
  | fundamental (msg : String)
deriving DecidableEq, Repr

/-- `errors.WithStack`: nil stays nil, anything else is wrapped. -/
def WithStack : Option GoError → Option GoError
  | none => none
  | some err => some (GoError.withStack err)

/-- `errors.Cause`: unwraps every `withStack` layer. -/
def Cause : GoError → GoError
  | GoError.withStack inner => Cause inner
  | GoError.driver e => GoError.driver e
  | GoError.fundamental msg => GoError.fundamental msg

/-- `errors.Errorf` for a format made of literal text followed by one `%d`. -/
def Errorf (text : String) (n : Int) : GoError :=
  GoError.fundamental (text ++ toString n)

/-! ## Records -/

/-- The dialect tag. -/
def flavor : String := "sqlite3"

/-- A `time.Time` value; `Time.zero` stands for the zero value `time.Time{}`. -/
structure Time where
  instant : Int
deriving DecidableEq, Repr

/-- The zero value of `time.Time`. -/
def Time.zero : Time := ⟨0⟩

/-- Modelled from the spec: the declaration of `models.UserID` is not among
the sources; its attributes are an identifier (opaque string token), a
creation timestamp and an expiration timestamp. -/
structure UserID where
  ID : String
  CreateTime : Time
  ExpireTime : Time
deriving DecidableEq, Repr

/-- Modelled from the spec: the declaration of `models.Download` is not among
the sources; its attributes are the owning user identifier, the download
timestamp, the filter-set descriptor, operating system, architecture,
version, binary name and source URL. -/
structure Download where
  User : String
  Downloaded : Time
  FilterSet : String
  OperatingSystem : String
  Architecture : String
  Version : String
  Binary : String
  URL : String
deriving DecidableEq, Repr

/-- The composite literal `models.Download{}`: every field at its zero value. -/
def Download.zero : Download := ⟨"", Time.zero, "", "", "", "", "", ""⟩

/-- The query texts supplied by the `models` package (not among the sources),
each a function of the dialect tag. -/
structure Models where
  Download_CreateTableIfNotExistsQueries : String → String
  UserID_CreateTableIfNotExistsQueries : String → String
  UserID_InsertIntoPreparedStatements : String → String
  Download_SelectRecentDownloads : String → String
  Download_InsertIntoPreparedStatements : String → String

/-! ## The storage layer -/

/-- A value bound to a statement parameter. -/
inductive Value where
  | int (i : Int)
  | str (s : String)
  | time (t : Time)
deriving DecidableEq, Repr

/-- A `*sql.DB` handle. -/
structure DB where
  id : Nat
deriving DecidableEq, Repr

/-- A `*sql.Stmt` handle. -/
structure Stmt where
  id : Nat
deriving DecidableEq, Repr

/-- A `sql.Result`: what `RowsAffected` will answer. -/
structure Result where
  rowsAffected : Except DriverError Int

/-- The four column values one `rows.Scan` call stores. -/
structure Row where
  os : String
  arch : String
  version : String
  binary : String
deriving DecidableEq, Repr

/-- A `*sql.Rows` cursor.  `steps` has one entry for each time `Next` answers
true, holding what the following `Scan` does; after them `Next` answers false,
`Err` answers `err`, and `Close` answers `close`. -/
structure Rows where
  id : Nat
  steps : List (Except DriverError Row)
  err : Option DriverError
  close : Option DriverError

/-- A call issued to the storage layer. -/
inductive Call where
  | sqlOpen (driverName dataSourceName : String)
  | dbExec (db : DB) (query : String)
  | dbPrepare (db : DB) (query : String)
  | stmtExec (stmt : Stmt) (args : List Value)
  | resultRowsAffected
  | stmtQuery (stmt : Stmt) (args : List Value)
  | rowsNext (rows : Nat)
  | rowsScan (rows : Nat)
  | rowsErr (rows : Nat)
  | rowsClose (rows : Nat)
deriving DecidableEq, Repr

/-- A call together with the error it reported, if any. -/
structure Event where
  call : Call
  failed : Option DriverError
deriving DecidableEq, Repr

/-- What has happened so far: the calls issued, oldest first, and the cursors
acquired and not yet released. -/
structure World where
  events : List Event
  openCursors : List Nat
deriving DecidableEq, Repr

/-- Appends one call and its outcome to the history. -/
def World.record (w : World) (c : Call) (failed : Option DriverError) : World :=
  ⟨w.events ++ [⟨c, failed⟩], w.openCursors⟩

/-- A successful query hands out an open cursor. -/
def World.acquire (w : World) (id : Nat) : World :=
  ⟨w.events, id :: w.openCursors⟩

/-- Closing a cursor releases it. -/
def World.release (w : World) (id : Nat) : World :=
  ⟨w.events, w.openCursors.erase id⟩

/-- The storage layer as an oracle: each answer may depend on the whole
history of earlier calls. -/
structure Driver where
  sqlOpen : List Event → String → String → Except DriverError DB
  dbExec : List Event → DB → String → Except DriverError Result
  dbPrepare : List Event → DB → String → Except DriverError Stmt
  stmtExec : List Event → Stmt → List Value → Except DriverError Result
  stmtQuery : List Event → Stmt → List Value → Except DriverError Rows

/-- Store holds the database connection and the three prepared statements. -/
structure Store where
  db : DB
  userIDstmt : Stmt
  getRecentDL : Stmt
  saveDL : Stmt
deriving DecidableEq, Repr

/-- How a Go function call ends: it returns, or a run-time panic unwinds it. -/
inductive Completion (α : Type) where
  | returned (a : α)
  | panicked (msg : String)
deriving DecidableEq, Repr

/-! ## Operations -/

/-- NewStore connects to the db and returns a store or an error if any. -/
def NewStore (d : Driver) (m : Models) (database : String) (w : World) :
    (Option Store × Option GoError) × World :=
  match d.sqlOpen w.events "sqlite3" database with
  | .error e =>
    ((none, WithStack (some (.driver e))), w.record (.sqlOpen "sqlite3" database) (some e))
  | .ok db =>
  let w1 := w.record (.sqlOpen "sqlite3" database) none
  let q1 := m.Download_CreateTableIfNotExistsQueries flavor
  match d.dbExec w1.events db q1 with
  | .error e => ((none, WithStack (some (.driver e))), w1.record (.dbExec db q1) (some e))
  | .ok _ =>
  let w2 := w1.record (.dbExec db q1) none
  let q2 := m.UserID_CreateTableIfNotExistsQueries flavor
  match d.dbExec w2.events db q2 with
  | .error e => ((none, WithStack (some (.driver e))), w2.record (.dbExec db q2) (some e))
  | .ok _ =>
  let w3 := w2.record (.dbExec db q2) none
  let q3 := m.UserID_InsertIntoPreparedStatements flavor
  match d.dbPrepare w3.events db q3 with
  | .error e => ((none, WithStack (some (.driver e))), w3.record (.dbPrepare db q3) (some e))
  | .ok uidstmt =>
  let w4 := w3.record (.dbPrepare db q3) none
  let q4 := m.Download_SelectRecentDownloads flavor
  match d.dbPrepare w4.events db q4 with
  | .error e => ((none, WithStack (some (.driver e))), w4.record (.dbPrepare db q4) (some e))
  | .ok dlstmt =>
  let w5 := w4.record (.dbPrepare db q4) none
  let q5 := m.Download_InsertIntoPreparedStatements flavor
  match d.dbPrepare w5.events db q5 with
  | .error e => ((none, WithStack (some (.driver e))), w5.record (.dbPrepare db q5) (some e))
  | .ok savedlstmt =>
  ((some ⟨db, uidstmt, dlstmt, savedlstmt⟩, none), w5.record (.dbPrepare db q5) none)

/-- The eight positional arguments of the download insert. -/
def downloadArgs (download : Download) : List Value :=
  [ .str download.User, .time download.Downloaded, .str download.FilterSet,
    .str download.OperatingSystem, .str download.Architecture, .str download.Version,
    .str download.Binary, .str download.URL ]

/-- SaveDownload writes the download to disk. -/
def SaveDownload (d : Driver) (s : Store) (download : Download) (w : World) :
    Option GoError × World :=
  match d.stmtExec w.events s.saveDL (downloadArgs download) with
  | .error e =>
    (WithStack (some (.driver e)), w.record (.stmtExec s.saveDL (downloadArgs download)) (some e))
  | .ok _ => (none, w.record (.stmtExec s.saveDL (downloadArgs download)) none)

/-- SaveUserID writes the UserID to disk. -/
def SaveUserID (d : Driver) (s : Store) (userID : UserID) (w : World) :
    Option GoError × World :=
  let args := [Value.str userID.ID, .time userID.CreateTime, .time userID.ExpireTime]
  match d.stmtExec w.events s.userIDstmt args with
  | .error e => (WithStack (some (.driver e)), w.record (.stmtExec s.userIDstmt args) (some e))
  | .ok r =>
  let w1 := w.record (.stmtExec s.userIDstmt args) none
  match r.rowsAffected with
  | .error e => (WithStack (some (.driver e)), w1.record .resultRowsAffected (some e))
  | .ok affected =>
  let w2 := w1.record .resultRowsAffected none
  if affected ≠ 1 then
    (some (Errorf "more or less than 1 row affected: " affected), w2)
  else
    (none, w2)

/-- The record one loop iteration builds: a zero `Download` with the four
scanned columns stored in it. -/
def scanned (r : Row) : Download :=
  { Download.zero with
    OperatingSystem := r.os, Architecture := r.arch, Version := r.version, Binary := r.binary }

/-- The `for rows.Next()` loop of `GetRecentDownloads` and the statements after
it, run over the remaining `steps` of the cursor with the slice built so far. -/
def scanLoop (rows : Rows) :
    List (Except DriverError Row) → List (Option Download) → World →
      (Option (List (Option Download)) × Option GoError) × World
  | [], out, w =>
    let w1 := w.record (.rowsNext rows.id) none
    let w2 := w1.record (.rowsErr rows.id) rows.err
    match rows.err with
    | some e => ((none, WithStack (some (.driver e))), w2)
    | none => ((some out, none), w2)
  | step :: rest, out, w =>
    let w1 := w.record (.rowsNext rows.id) none
    match step with
    | .error e => ((none, WithStack (some (.driver e))), w1.record (.rowsScan rows.id) (some e))
    | .ok r => scanLoop rows rest (out ++ [some (scanned r)]) (w1.record (.rowsScan rows.id) none)

/-- GetRecentDownloads, with its deferred `rows.Close()` run on every way out
of the body once the query has succeeded.  A slice is a list of pointers,
`none` being the nil pointer; the nil slice is `none`.  `make` with a negative
length panics; running out of memory is not represented. -/
def GetRecentDownloads (d : Driver) (s : Store) (userID : UserID) (limit : Int) (w : World) :
    Completion (Option (List (Option Download)) × Option GoError) × World :=
  let args := [Value.int limit, .str userID.ID]
  match d.stmtQuery w.events s.getRecentDL args with
  | .error e =>
    (.returned (none, WithStack (some (.driver e))),
      w.record (.stmtQuery s.getRecentDL args) (some e))
  | .ok rows =>
  let w1 := (w.record (.stmtQuery s.getRecentDL args) none).acquire rows.id
  let body : Completion (Option (List (Option Download)) × Option GoError) × World :=
    if limit < 0 then
      (.panicked "makeslice: len out of range", w1)
    else
      let r := scanLoop rows rows.steps (List.replicate limit.toNat none) w1
      (.returned r.1, r.2)
  (body.1, (body.2.record (.rowsClose rows.id) rows.close).release rows.id)

/-! ## Reading the history -/

/-- The events recorded between the world `w` and a later world `w2`. -/
def eventsSince (w w2 : World) : List Event :=
  w2.events.drop w.events.length

/-- Whether a call is a statement query. -/
def Call.isQuery : Call → Bool
  | .stmtQuery _ _ => true
  | _ => false

/-- Whether a call is a statement execution. -/
def Call.isExec : Call → Bool
  | .stmtExec _ _ => true
  | _ => false

/-- Whether a call releases a cursor. -/
def Call.isClose : Call → Bool
  | .rowsClose _ => true
  | _ => false

/-- Whether a call is one of the loop's calls on cursor `id`: `Next`, `Scan`
or `Err`. -/
def Call.isScanStep (id : Nat) : Call → Bool
  | .rowsNext i => i == id
  | .rowsScan i => i == id
  | .rowsErr i => i == id
  | _ => false

/-- The six construction steps in their fixed order, on the handle `db`. -/
def constructionCalls (m : Models) (database : String) (db : DB) : List Call :=
  [ .sqlOpen "sqlite3" database,
    .dbExec db (m.Download_CreateTableIfNotExistsQueries flavor),
    .dbExec db (m.UserID_CreateTableIfNotExistsQueries flavor),
    .dbPrepare db (m.UserID_InsertIntoPreparedStatements flavor),
    .dbPrepare db (m.Download_SelectRecentDownloads flavor),
    .dbPrepare db (m.Download_InsertIntoPreparedStatements flavor) ]

/-! ## Concrete storage layers -/

/-- A cursor numbered 7 over the given steps. -/
def cursorOf (steps : List (Except DriverError Row)) (err close : Option DriverError) : Rows :=
  ⟨7, steps, err, close⟩

/-- A storage layer on which every call succeeds: inserts report `affected`
rows and the select hands out `rows`. -/
def okDriver (affected : Int) (rows : Rows) : Driver :=
  ⟨fun _ _ _ => .ok ⟨1⟩, fun _ _ _ => .ok ⟨.ok 0⟩, fun h _ _ => .ok ⟨h.length⟩,
    fun _ _ _ => .ok ⟨.ok affected⟩, fun _ _ _ => .ok rows⟩

/-- Query texts standing in for those of the models package. -/
def sampleModels : Models :=
  ⟨fun _ => "create downloads", fun _ => "create userids", fun _ => "insert userid",
    fun _ => "select recent", fun _ => "insert download"⟩

/-- The store `NewStore` builds on `okDriver` from the empty history. -/
def sampleStore : Store := ⟨⟨1⟩, ⟨3⟩, ⟨4⟩, ⟨5⟩⟩

/-- The empty history. -/
def World.empty : World := ⟨[], []⟩

/-- The user of the end-to-end scenario. -/
def u1 : UserID := ⟨"u1", ⟨100⟩, ⟨200⟩⟩

/-- The row of the end-to-end scenario. -/
def kubectlRow : Row := ⟨"linux", "amd64", "1.28.0", "kubectl"⟩

/-- The download of the end-to-end scenario. -/
def kubectlDownload : Download :=
  ⟨"u1", ⟨150⟩, "", "linux", "amd64", "1.28.0", "kubectl", "https://example/kubectl"⟩

/-! ## Basic facts about the history -/

@[simp] theorem record_events (w : World) (c : Call) (f : Option DriverError) :
    (w.record c f).events = w.events ++ [⟨c, f⟩] := rfl

@[simp] theorem record_openCursors (w : World) (c : Call) (f : Option DriverError) :
    (w.record c f).openCursors = w.openCursors := rfl

@[simp] theorem acquire_events (w : World) (id : Nat) : (w.acquire id).events = w.events := rfl

@[simp] theorem acquire_openCursors (w : World) (id : Nat) :
    (w.acquire id).openCursors = id :: w.openCursors := rfl

@[simp] theorem release_events (w : World) (id : Nat) : (w.release id).events = w.events := rfl

@[simp] theorem release_openCursors (w : World) (id : Nat) :
    (w.release id).openCursors = w.openCursors.erase id := rfl

theorem eventsSince_of_append {w w2 : World} {l : List Event}
    (h : w2.events = w.events ++ l) : eventsSince w w2 = l := by
  simp [eventsSince, h]

/-! ## SaveDownload -/

/-- The outcome of the one statement execution `SaveDownload` issues. -/
theorem SaveDownload_events (d : Driver) (s : Store) (dl : Download) (w : World) :
    ∃ failed, eventsSince w (SaveDownload d s dl w).2
        = [⟨.stmtExec s.saveDL (downloadArgs dl), failed⟩]
      ∧ ((SaveDownload d s dl w).1 = none ↔ failed = none)
      ∧ (∀ e, failed = some e → (SaveDownload d s dl w).1 = some (.withStack (.driver e))) := by
  unfold SaveDownload
  cases h : d.stmtExec w.events s.saveDL (downloadArgs dl) with
  | error e =>
    refine ⟨some e, eventsSince_of_append (by simp), by simp [WithStack], ?_⟩
    intro e2 he
    cases he
    rfl
  | ok r =>
    exact ⟨none, eventsSince_of_append (by simp), by simp, by simp⟩

/-- C5: SaveDownload issues exactly one storage call, the execution of the
store's download insert, with exactly eight arguments that are the record's
fields unchanged in the order user, downloaded, filter set, operating system,
architecture, version, binary, URL; it returns no error exactly when that
execution reports none. -/
theorem SaveDownload_executes_insert_once (d : Driver) (s : Store) (dl : Download) (w : World) :
    ∃ failed, eventsSince w (SaveDownload d s dl w).2
        = [⟨.stmtExec s.saveDL
              [.str dl.User, .time dl.Downloaded, .str dl.FilterSet, .str dl.OperatingSystem,
                .str dl.Architecture, .str dl.Version, .str dl.Binary, .str dl.URL], failed⟩]
      ∧ (downloadArgs dl).length = 8
      ∧ ((SaveDownload d s dl w).1 = none ↔ failed = none) := by
  obtain ⟨failed, h1, h2, _⟩ := SaveDownload_events d s dl w
  exact ⟨failed, h1, rfl, h2⟩

/-! ## SaveUserID -/

/-- The decimal rendering of the count ends the message built by `Errorf`. -/
theorem Errorf_message (text : String) (n : Int) :
    ∃ msg, Errorf text n = .fundamental msg ∧ msg = text ++ toString n
      ∧ (toString n).data <:+ msg.data := by
  refine ⟨text ++ toString n, rfl, rfl, ?_⟩
  rw [String.data_append]
  exact List.suffix_append _ _

/-- C3: when the user-id insert executes and the affected-row count `n` is
obtained, both without error, SaveUserID returns no error exactly when
`n = 1`; for any other `n` it returns a fresh error whose message ends with the
decimal rendering of `n`, which is neither a storage-layer error value nor a
wrapper around one. -/
theorem SaveUserID_affected_count (d : Driver) (s : Store) (u : UserID) (w : World)
    (r : Result) (n : Int)
    (hexec : d.stmtExec w.events s.userIDstmt
      [.str u.ID, .time u.CreateTime, .time u.ExpireTime] = .ok r)
    (hcount : r.rowsAffected = .ok n) :
    ((SaveUserID d s u w).1 = none ↔ n = 1)
      ∧ (n ≠ 1 → ∃ msg, (SaveUserID d s u w).1 = some (.fundamental msg)
          ∧ msg = "more or less than 1 row affected: " ++ toString n
          ∧ (toString n).data <:+ msg.data
          ∧ ∀ e : DriverError, GoError.fundamental msg ≠ .driver e
              ∧ Cause (.fundamental msg) ≠ .driver e) := by
  have hrun : (SaveUserID d s u w).1
      = if n ≠ 1 then some (Errorf "more or less than 1 row affected: " n) else none := by
    simp only [SaveUserID, hexec, hcount]
    split <;> rfl
  constructor
  · rw [hrun]
    by_cases h : n = 1 <;> simp [h]
  · intro h
    obtain ⟨msg, hmsg, heq, hsuf⟩ := Errorf_message "more or less than 1 row affected: " n
    refine ⟨msg, ?_, heq, hsuf, ?_⟩
    · rw [hrun, if_pos h, hmsg]
    · intro e
      exact ⟨by simp, by simp [Cause]⟩

/-- An instance of `SaveUserID_affected_count`: an insert reporting 0 rows. -/
theorem SaveUserID_affected_count_witness :
    (okDriver 0 (cursorOf [] none none)).stmtExec World.empty.events sampleStore.userIDstmt
        [.str u1.ID, .time u1.CreateTime, .time u1.ExpireTime] = .ok ⟨.ok 0⟩
      ∧ (⟨.ok 0⟩ : Result).rowsAffected = .ok 0
      ∧ ((SaveUserID (okDriver 0 (cursorOf [] none none)) sampleStore u1 World.empty).1 = none
        ↔ (0 : Int) = 1)
      ∧ ((0 : Int) ≠ 1 → ∃ msg,
          (SaveUserID (okDriver 0 (cursorOf [] none none)) sampleStore u1 World.empty).1
            = some (.fundamental msg)
          ∧ msg = "more or less than 1 row affected: " ++ toString (0 : Int)
          ∧ (toString (0 : Int)).data <:+ msg.data
          ∧ ∀ e : DriverError, GoError.fundamental msg ≠ .driver e
              ∧ Cause (.fundamental msg) ≠ .driver e) :=
  ⟨rfl, rfl,
    SaveUserID_affected_count (okDriver 0 (cursorOf [] none none)) sampleStore u1 World.empty
      ⟨.ok 0⟩ 0 rfl rfl⟩

/-! ## The scan loop -/

/-- On a cursor that yields its rows without any error the loop appends one
record per row, in order, to the slice it started from. -/
theorem scanLoop_all_rows (rows : Rows) (herr : rows.err = none) (rs : List Row) :
    ∀ (out : List (Option Download)) (w : World),
      (scanLoop rows (rs.map Except.ok) out w).1
        = (some (out ++ rs.map (fun r => some (scanned r))), none) := by
  induction rs with
  | nil =>
    intro out w
    simp [scanLoop, herr]
  | cons r rs ih =>
    intro out w
    simp only [List.map_cons, scanLoop]
    rw [ih]
    simp

/-- What the loop adds to the history: only `Next`, `Scan` and `Err` calls on
its cursor; a failing call is the last one and its error is the one returned,
wrapped, with no slice; without a failing call a slice is returned. -/
theorem scanLoop_world (rows : Rows) (steps : List (Except DriverError Row)) :
    ∀ (out : List (Option Download)) (w : World),
      ∃ evs, (scanLoop rows steps out w).2.events = w.events ++ evs
        ∧ (scanLoop rows steps out w).2.openCursors = w.openCursors
        ∧ (∀ ev ∈ evs, ev.call.isScanStep rows.id = true)
        ∧ (∀ pre ev post e, evs = pre ++ ev :: post → ev.failed = some e →
            post = [] ∧ (scanLoop rows steps out w).1 = (none, some (.withStack (.driver e))))
        ∧ ((∀ ev ∈ evs, ev.failed = none) →
            ∃ o, (scanLoop rows steps out w).1 = (some o, none)) := by
  induction steps with
  | nil =>
    intro out w
    refine ⟨[⟨.rowsNext rows.id, none⟩, ⟨.rowsErr rows.id, rows.err⟩], ?_, ?_, ?_, ?_, ?_⟩
    · cases h : rows.err <;> simp [scanLoop, h]
    · cases h : rows.err <;> simp [scanLoop, h]
    · simp [Call.isScanStep]
    · intro pre ev post e hsplit hfail
      rcases pre with _ | ⟨p, pre⟩
      · simp at hsplit
        rw [← hsplit.1] at hfail
        simp at hfail
      · rcases pre with _ | ⟨p2, pre⟩
        · simp at hsplit
          obtain ⟨-, hev, hpost⟩ := hsplit
          rw [← hev] at hfail
          simp at hfail
          refine ⟨hpost, ?_⟩
          simp [scanLoop, hfail, WithStack]
        · simp at hsplit
    · intro hall
      have h : rows.err = none := by simpa using hall
      exact ⟨out, by simp [scanLoop, h]⟩
  | cons step rest ih =>
    intro out w
    cases step with
    | error e =>
      refine ⟨[⟨.rowsNext rows.id, none⟩, ⟨.rowsScan rows.id, some e⟩], ?_, ?_, ?_, ?_, ?_⟩
      · simp [scanLoop]
      · simp [scanLoop]
      · simp [Call.isScanStep]
      · intro pre ev post e2 hsplit hfail
        rcases pre with _ | ⟨p, pre⟩
        · simp at hsplit
          rw [← hsplit.1] at hfail
          simp at hfail
        · rcases pre with _ | ⟨p2, pre⟩
          · simp at hsplit
            obtain ⟨-, hev, hpost⟩ := hsplit
            rw [← hev] at hfail
            simp at hfail
            refine ⟨hpost, ?_⟩
            simp [scanLoop, hfail, WithStack]
          · simp at hsplit
      · intro hall
        simp at hall
    | ok r =>
      obtain ⟨evs, h1, h2, h3, h4, h5⟩ :=
        ih (out ++ [some (scanned r)])
          ((w.record (.rowsNext rows.id) none).record (.rowsScan rows.id) none)
      refine ⟨⟨.rowsNext rows.id, none⟩ :: ⟨.rowsScan rows.id, none⟩ :: evs, ?_, ?_, ?_, ?_, ?_⟩
      · simp only [scanLoop]
        rw [h1]
        simp
      · simp only [scanLoop]
        rw [h2]
        simp
      · intro ev hev
        simp only [List.mem_cons] at hev
        rcases hev with rfl | rfl | hev
        · simp [Call.isScanStep]
        · simp [Call.isScanStep]
        · exact h3 ev hev
      · intro pre ev post e hsplit hfail
        simp only [scanLoop]
        rcases pre with _ | ⟨p, pre⟩
        · simp at hsplit
          rw [← hsplit.1] at hfail
          simp at hfail
        · rcases pre with _ | ⟨p2, pre⟩
          · simp at hsplit
            rw [← hsplit.2.1] at hfail
            simp at hfail
          · simp at hsplit
            exact h4 pre ev post e hsplit.2.2 hfail
      · intro hall
        simp only [scanLoop]
        apply h5
        intro ev hev
        exact hall ev (by simp [hev])

/-! ## GetRecentDownloads -/

/-- When the select fails nothing else is called. -/
theorem GetRecentDownloads_query_error (d : Driver) (s : Store) (u : UserID) (limit : Int)
    (w : World) (e : DriverError)
    (hq : d.stmtQuery w.events s.getRecentDL [.int limit, .str u.ID] = .error e) :
    GetRecentDownloads d s u limit w
      = (.returned (none, some (.withStack (.driver e))),
          w.record (.stmtQuery s.getRecentDL [.int limit, .str u.ID]) (some e)) := by
  simp [GetRecentDownloads, hq, WithStack]

/-- When the select succeeds the history grows by the query, the loop's calls
and, last, the release of the cursor; the set of open cursors is restored. -/
theorem GetRecentDownloads_query_ok (d : Driver) (s : Store) (u : UserID) (limit : Int)
    (w : World) (rows : Rows)
    (hq : d.stmtQuery w.events s.getRecentDL [.int limit, .str u.ID] = .ok rows) :
    ∃ evs, (GetRecentDownloads d s u limit w).2.events
          = w.events ++ ⟨.stmtQuery s.getRecentDL [.int limit, .str u.ID], none⟩
              :: (evs ++ [⟨.rowsClose rows.id, rows.close⟩])
      ∧ (GetRecentDownloads d s u limit w).2.openCursors = w.openCursors
      ∧ (∀ ev ∈ evs, ev.call.isScanStep rows.id = true)
      ∧ (∀ pre ev post e, evs = pre ++ ev :: post → ev.failed = some e →
          post = [] ∧ (GetRecentDownloads d s u limit w).1
            = .returned (none, some (.withStack (.driver e)))) := by
  by_cases hlim : limit < 0
  · refine ⟨[], ?_, ?_, ?_, ?_⟩
    · simp [GetRecentDownloads, hq, hlim]
    · simp [GetRecentDownloads, hq, hlim]
    · simp
    · intro pre ev post e hsplit
      simp at hsplit
  · obtain ⟨evs, h1, h2, h3, h4, -⟩ :=
      scanLoop_world rows rows.steps (List.replicate limit.toNat none)
        ((w.record (.stmtQuery s.getRecentDL [.int limit, .str u.ID]) none).acquire rows.id)
    refine ⟨evs, ?_, ?_, h3, ?_⟩
    · simp only [GetRecentDownloads, hq, hlim, if_false, release_events, record_events]
      rw [h1]
      simp
    · simp only [GetRecentDownloads, hq, hlim, if_false, release_openCursors,
        record_openCursors]
      rw [h2]
      simp
    · intro pre ev post e hsplit hfail
      obtain ⟨hpost, hres⟩ := h4 pre ev post e hsplit hfail
      refine ⟨hpost, ?_⟩
      simp only [GetRecentDownloads, hq, hlim, if_false]
      rw [hres]

/-- C10: for a limit `n ≥ 0` and a cursor that yields `k` rows without error,
the returned sequence has length `n + k`: `n` nil entries from the initial
allocation followed by the `k` records built from the rows, in cursor order. -/
theorem GetRecentDownloads_result (d : Driver) (s : Store) (u : UserID) (limit : Int)
    (w : World) (rows : Rows) (rs : List Row)
    (hlim : 0 ≤ limit)
    (hq : d.stmtQuery w.events s.getRecentDL [.int limit, .str u.ID] = .ok rows)
    (hsteps : rows.steps = rs.map Except.ok) (herr : rows.err = none) :
    ∃ out, (GetRecentDownloads d s u limit w).1 = .returned (some out, none)
      ∧ out = List.replicate limit.toNat none ++ rs.map (fun r => some (scanned r))
      ∧ (out.length : Int) = limit + rs.length
      ∧ out.take limit.toNat = List.replicate limit.toNat none
      ∧ out.drop limit.toNat = rs.map (fun r => some (scanned r)) := by
  have hnot : ¬ limit < 0 := not_lt.mpr hlim
  refine ⟨_, ?_, rfl, ?_, ?_, ?_⟩
  · simp only [GetRecentDownloads, hq, hnot, if_false, hsteps]
    rw [scanLoop_all_rows rows herr rs]
  · simp [Int.toNat_of_nonneg hlim]
  · simp [List.take_append_eq_append_take]
  · simp [List.drop_append_eq_append_drop]

/-- An instance of `GetRecentDownloads_result`: limit 2 and two rows. -/
theorem GetRecentDownloads_result_witness :
    (0 : Int) ≤ 2
      ∧ (okDriver 1 (cursorOf [.ok kubectlRow, .ok ⟨"darwin", "arm64", "1.27.0", "kubeadm"⟩]
            none none)).stmtQuery World.empty.events sampleStore.getRecentDL
          [.int 2, .str u1.ID]
          = .ok (cursorOf [.ok kubectlRow, .ok ⟨"darwin", "arm64", "1.27.0", "kubeadm"⟩]
              none none)
      ∧ ∃ out, (GetRecentDownloads
            (okDriver 1 (cursorOf [.ok kubectlRow, .ok ⟨"darwin", "arm64", "1.27.0", "kubeadm"⟩]
              none none)) sampleStore u1 2 World.empty).1 = .returned (some out, none)
          ∧ out = List.replicate (2 : Int).toNat none
              ++ [kubectlRow, ⟨"darwin", "arm64", "1.27.0", "kubeadm"⟩].map
                  (fun r => some (scanned r))
          ∧ (out.length : Int)
              = 2 + ([kubectlRow, ⟨"darwin", "arm64", "1.27.0", "kubeadm"⟩] : List Row).length
          ∧ out.take (2 : Int).toNat = List.replicate (2 : Int).toNat none
          ∧ out.drop (2 : Int).toNat
              = [kubectlRow, ⟨"darwin", "arm64", "1.27.0", "kubeadm"⟩].map
                  (fun r => some (scanned r)) :=
  ⟨by decide, rfl,
    GetRecentDownloads_result _ sampleStore u1 2 World.empty
      (cursorOf [.ok kubectlRow, .ok ⟨"darwin", "arm64", "1.27.0", "kubeadm"⟩] none none)
      [kubectlRow, ⟨"darwin", "arm64", "1.27.0", "kubeadm"⟩] (by decide) rfl rfl rfl⟩

theorem isScanStep_not_query {id : Nat} {c : Call} (h : c.isScanStep id = true) :
    c.isQuery = false ∧ c.isExec = false ∧ c.isClose = false := by
  cases c <;> simp_all [Call.isScanStep, Call.isQuery, Call.isExec, Call.isClose]

/-- C6: GetRecentDownloads begins with the one query it issues, on the store's
recent-downloads select, with exactly two arguments, the limit and then the
user's identifier; no later call is a statement query or execution, and the
user's timestamps have no influence on the call at all. -/
theorem GetRecentDownloads_query_once (d : Driver) (s : Store) (u : UserID) (limit : Int)
    (w : World) :
    (∃ failed rest, eventsSince w (GetRecentDownloads d s u limit w).2
          = ⟨.stmtQuery s.getRecentDL [.int limit, .str u.ID], failed⟩ :: rest
        ∧ ∀ ev ∈ rest, ev.call.isQuery = false ∧ ev.call.isExec = false)
      ∧ ∀ created expires : Time,
          GetRecentDownloads d s ⟨u.ID, created, expires⟩ limit w
            = GetRecentDownloads d s u limit w := by
  refine ⟨?_, fun _ _ => rfl⟩
  cases hq : d.stmtQuery w.events s.getRecentDL [.int limit, .str u.ID] with
  | error e =>
    refine ⟨some e, [], eventsSince_of_append ?_, by simp⟩
    rw [GetRecentDownloads_query_error d s u limit w e hq]
    simp
  | ok rows =>
    obtain ⟨evs, h1, -, h3, -⟩ := GetRecentDownloads_query_ok d s u limit w rows hq
    refine ⟨none, evs ++ [⟨.rowsClose rows.id, rows.close⟩], eventsSince_of_append h1, ?_⟩
    intro ev hev
    rcases List.mem_append.mp hev with hin | hin
    · exact ⟨(isScanStep_not_query (h3 ev hin)).1, (isScanStep_not_query (h3 ev hin)).2.1⟩
    · simp at hin
      subst hin
      simp [Call.isQuery, Call.isExec]

/-- C8: when the select hands out a cursor, the last call GetRecentDownloads
issues is the release of that cursor, it is the only release, and the set of
open cursors afterwards is the set before the call, whichever way the body
ends; when the select fails no release is issued and the set is unchanged. -/
theorem GetRecentDownloads_releases_cursor (d : Driver) (s : Store) (u : UserID)
    (limit : Int) (w : World) :
    (∀ rows, d.stmtQuery w.events s.getRecentDL [.int limit, .str u.ID] = .ok rows →
        ∃ evs, eventsSince w (GetRecentDownloads d s u limit w).2
              = ⟨.stmtQuery s.getRecentDL [.int limit, .str u.ID], none⟩
                  :: (evs ++ [⟨.rowsClose rows.id, rows.close⟩])
          ∧ (∀ ev ∈ evs, ev.call.isClose = false)
          ∧ (GetRecentDownloads d s u limit w).2.openCursors = w.openCursors)
      ∧ (∀ e, d.stmtQuery w.events s.getRecentDL [.int limit, .str u.ID] = .error e →
          (∀ ev ∈ eventsSince w (GetRecentDownloads d s u limit w).2, ev.call.isClose = false)
          ∧ (GetRecentDownloads d s u limit w).2.openCursors = w.openCursors) := by
  constructor
  · intro rows hq
    obtain ⟨evs, h1, h2, h3, -⟩ := GetRecentDownloads_query_ok d s u limit w rows hq
    exact ⟨evs, eventsSince_of_append h1, fun ev hev => (isScanStep_not_query (h3 ev hev)).2.2,
      h2⟩
  · intro e hq
    rw [GetRecentDownloads_query_error d s u limit w e hq]
    constructor
    · intro ev hev
      rw [eventsSince_of_append (record_events w _ _)] at hev
      simp at hev
      subst hev
      rfl
    · rfl

/-- An instance of `GetRecentDownloads_releases_cursor`: the second row fails
to scan, a cursor numbered 7 is handed out while cursor 3 is open. -/
theorem GetRecentDownloads_releases_cursor_witness :
    ∃ evs, eventsSince ⟨[], [3]⟩
          (GetRecentDownloads
            (okDriver 1 (cursorOf [.ok kubectlRow, .error ⟨"scan failed"⟩] none none))
            sampleStore u1 5 ⟨[], [3]⟩).2
        = ⟨.stmtQuery sampleStore.getRecentDL [.int 5, .str u1.ID], none⟩
            :: (evs ++ [⟨.rowsClose 7, none⟩])
      ∧ (∀ ev ∈ evs, ev.call.isClose = false)
      ∧ (GetRecentDownloads
            (okDriver 1 (cursorOf [.ok kubectlRow, .error ⟨"scan failed"⟩] none none))
            sampleStore u1 5 ⟨[], [3]⟩).2.openCursors = [3] :=
  (GetRecentDownloads_releases_cursor
    (okDriver 1 (cursorOf [.ok kubectlRow, .error ⟨"scan failed"⟩] none none))
    sampleStore u1 5 ⟨[], [3]⟩).1
    (cursorOf [.ok kubectlRow, .error ⟨"scan failed"⟩] none none) rfl

/-- C1: with limit 1 and a cursor yielding one row the returned sequence has
two entries, more than the limit. -/
theorem GetRecentDownloads_exceeds_limit :
    ∃ out, (GetRecentDownloads (okDriver 1 (cursorOf [.ok kubectlRow] none none))
          sampleStore u1 1 World.empty).1 = .returned (some out, none)
      ∧ out = [none, some (scanned kubectlRow)] ∧ out.length = 2 ∧ ¬ out.length ≤ 1 :=
  ⟨_, rfl, by decide, by decide, by decide⟩

/-- C2: in the end-to-end scenario (user u1, limit 10, one row) the call
returns eleven entries, ten nil ones before the record; with no row at all it
returns ten nil entries, not the empty sequence. -/
theorem GetRecentDownloads_scenario_length :
    (GetRecentDownloads (okDriver 1 (cursorOf [.ok kubectlRow] none none))
        sampleStore u1 10 World.empty).1
      = .returned (some (List.replicate 10 none ++ [some (scanned kubectlRow)]), none)
    ∧ (GetRecentDownloads (okDriver 1 (cursorOf [] none none))
        sampleStore u1 10 World.empty).1
      = .returned (some (List.replicate 10 none), none) :=
  ⟨by decide, by decide⟩

/-- C4: with limit 2 and one row the call succeeds and its first two entries
are nil, not records; only the third is the record built from the row. -/
theorem GetRecentDownloads_nil_entries :
    (GetRecentDownloads (okDriver 1 (cursorOf [.ok kubectlRow] none none))
        sampleStore u1 2 World.empty).1
      = .returned (some [none, none,
          some ⟨"", Time.zero, "", "linux", "amd64", "1.28.0", "kubectl", ""⟩], none) := by
  decide

/-! ## Error propagation -/

/-- A failing call of SaveUserID is its last call and its error is the one
returned, wrapped. -/
theorem SaveUserID_failure (d : Driver) (s : Store) (u : UserID) (w : World)
    (pre post : List Event) (ev : Event) (e : DriverError)
    (hsplit : eventsSince w (SaveUserID d s u w).2 = pre ++ ev :: post)
    (hfail : ev.failed = some e) :
    post = [] ∧ (SaveUserID d s u w).1 = some (.withStack (.driver e)) := by
  cases hx : d.stmtExec w.events s.userIDstmt
      [.str u.ID, .time u.CreateTime, .time u.ExpireTime] with
  | error e0 =>
    have hev : eventsSince w (SaveUserID d s u w).2
        = [⟨.stmtExec s.userIDstmt [.str u.ID, .time u.CreateTime, .time u.ExpireTime],
            some e0⟩] :=
      eventsSince_of_append (by simp [SaveUserID, hx])
    rw [hev] at hsplit
    rcases pre with _ | ⟨p, pre⟩
    · simp at hsplit
      obtain ⟨hev2, hpost⟩ := hsplit
      rw [← hev2] at hfail
      simp at hfail
      exact ⟨hpost, by simp [SaveUserID, hx, WithStack, hfail]⟩
    · simp at hsplit
  | ok r =>
    cases hr : r.rowsAffected with
    | error e0 =>
      have hev : eventsSince w (SaveUserID d s u w).2
          = [⟨.stmtExec s.userIDstmt [.str u.ID, .time u.CreateTime, .time u.ExpireTime], none⟩,
              ⟨.resultRowsAffected, some e0⟩] :=
        eventsSince_of_append (by simp [SaveUserID, hx, hr])
      rw [hev] at hsplit
      rcases pre with _ | ⟨p, pre⟩
      · simp at hsplit
        rw [← hsplit.1] at hfail
        simp at hfail
      · rcases pre with _ | ⟨p2, pre⟩
        · simp at hsplit
          obtain ⟨-, hev2, hpost⟩ := hsplit
          rw [← hev2] at hfail
          simp at hfail
          exact ⟨hpost, by simp [SaveUserID, hx, hr, WithStack, hfail]⟩
        · simp at hsplit
    | ok n =>
      have hev : eventsSince w (SaveUserID d s u w).2
          = [⟨.stmtExec s.userIDstmt [.str u.ID, .time u.CreateTime, .time u.ExpireTime], none⟩,
              ⟨.resultRowsAffected, none⟩] := by
        apply eventsSince_of_append
        simp only [SaveUserID, hx, hr]
        split <;> simp
      rw [hev] at hsplit
      rcases pre with _ | ⟨p, pre⟩
      · simp at hsplit
        rw [← hsplit.1] at hfail
        simp at hfail
      · rcases pre with _ | ⟨p2, pre⟩
        · simp at hsplit
          rw [← hsplit.2.1] at hfail
          simp at hfail
        · simp at hsplit

/-- A failing call of GetRecentDownloads other than the release of the cursor
is followed by that release only, and its error is the one returned, wrapped,
with no slice. -/
theorem GetRecentDownloads_failure (d : Driver) (s : Store) (u : UserID) (limit : Int)
    (w : World) (pre post : List Event) (ev : Event) (e : DriverError)
    (hsplit : eventsSince w (GetRecentDownloads d s u limit w).2 = pre ++ ev :: post)
    (hfail : ev.failed = some e) (hrel : ev.call.isClose = false) :
    (∀ x ∈ post, x.call.isClose = true) ∧ post.length ≤ 1
      ∧ (GetRecentDownloads d s u limit w).1
          = .returned (none, some (.withStack (.driver e))) := by
  cases hq : d.stmtQuery w.events s.getRecentDL [.int limit, .str u.ID] with
  | error e0 =>
    rw [GetRecentDownloads_query_error d s u limit w e0 hq] at hsplit ⊢
    rw [eventsSince_of_append (record_events w _ _)] at hsplit
    rcases pre with _ | ⟨p, pre⟩
    · simp at hsplit
      obtain ⟨hev2, hpost⟩ := hsplit
      rw [← hev2] at hfail
      simp at hfail
      subst hpost
      simp [hfail]
    · simp at hsplit
  | ok rows =>
    obtain ⟨evs, h1, -, h3, h4⟩ := GetRecentDownloads_query_ok d s u limit w rows hq
    rw [eventsSince_of_append h1] at hsplit
    rcases pre with _ | ⟨p, pre⟩
    · simp at hsplit
      rw [← hsplit.1] at hfail
      simp at hfail
    · simp only [List.cons_append, List.cons.injEq] at hsplit
      obtain ⟨-, hrest⟩ := hsplit
      rcases List.append_eq_append_iff.mp hrest with ⟨a, ha1, ha2⟩ | ⟨a, ha1, ha2⟩
      · rcases a with _ | ⟨a0, a⟩
        · simp at ha2
          obtain ⟨hev2, -⟩ := ha2
          rw [← hev2] at hrel
          simp [Call.isClose] at hrel
        · simp at ha2
      · rcases a with _ | ⟨a0, a⟩
        · simp at ha2
          obtain ⟨hev2, -⟩ := ha2
          rw [hev2] at hrel
          simp [Call.isClose] at hrel
        · simp only [List.cons_append, List.cons.injEq] at ha2
          obtain ⟨ha0, hpost⟩ := ha2
          subst ha0
          obtain ⟨hnil, hres⟩ := h4 pre ev a e ha1 hfail
          subst hnil
          simp at hpost
          subst hpost
          exact ⟨by simp [Call.isClose], by simp, hres⟩

/-- C9, as the claim states it, fails: a cursor release that reports an error
leaves GetRecentDownloads returning a slice and no error. -/
theorem GetRecentDownloads_close_error_dropped :
    (⟨.rowsClose 7, some ⟨"close failed"⟩⟩ : Event)
        ∈ eventsSince World.empty
            (GetRecentDownloads (okDriver 1 (cursorOf [] none (some ⟨"close failed"⟩)))
              sampleStore u1 1 World.empty).2
      ∧ ¬ ∃ err sl, (GetRecentDownloads (okDriver 1 (cursorOf [] none (some ⟨"close failed"⟩)))
              sampleStore u1 1 World.empty).1 = .returned (sl, some err) := by
  constructor
  · decide
  · rintro ⟨err, sl, h⟩
    have h2 : (GetRecentDownloads (okDriver 1 (cursorOf [] none (some ⟨"close failed"⟩)))
        sampleStore u1 1 World.empty).1 = .returned (some [none], none) := by decide
    rw [h2] at h
    simp at h

/-- C9, amended: in SaveDownload, SaveUserID and GetRecentDownloads, a storage
call other than the cursor release that reports an error `e` makes the
operation return a non-nil error whose cause is `e` (with no slice for
GetRecentDownloads), and no storage call follows the failing one apart from the
single release of the cursor in GetRecentDownloads. -/
theorem errors_propagate (d : Driver) (s : Store) (w : World)
    (pre post : List Event) (ev : Event) (e : DriverError)
    (hfail : ev.failed = some e) (hrel : ev.call.isClose = false) :
    (∀ dl, eventsSince w (SaveDownload d s dl w).2 = pre ++ ev :: post →
        post = [] ∧ ∃ err, (SaveDownload d s dl w).1 = some err ∧ Cause err = .driver e)
      ∧ (∀ u, eventsSince w (SaveUserID d s u w).2 = pre ++ ev :: post →
        post = [] ∧ ∃ err, (SaveUserID d s u w).1 = some err ∧ Cause err = .driver e)
      ∧ (∀ u limit, eventsSince w (GetRecentDownloads d s u limit w).2 = pre ++ ev :: post →
        (∀ x ∈ post, x.call.isClose = true) ∧ post.length ≤ 1
          ∧ ∃ err, (GetRecentDownloads d s u limit w).1 = .returned (none, some err)
              ∧ Cause err = .driver e) := by
  refine ⟨?_, ?_, ?_⟩
  · intro dl hsplit
    obtain ⟨failed, h1, -, h3⟩ := SaveDownload_events d s dl w
    rw [h1] at hsplit
    rcases pre with _ | ⟨p, pre⟩
    · simp at hsplit
      obtain ⟨hev2, hpost⟩ := hsplit
      rw [← hev2] at hfail
      simp at hfail
      exact ⟨hpost, _, h3 e hfail, rfl⟩
    · simp at hsplit
  · intro u hsplit
    obtain ⟨hpost, hres⟩ := SaveUserID_failure d s u w pre post ev e hsplit hfail
    exact ⟨hpost, _, hres, rfl⟩
  · intro u limit hsplit
    obtain ⟨h1, h2, h3⟩ := GetRecentDownloads_failure d s u limit w pre post ev e hsplit hfail hrel
    exact ⟨h1, h2, _, h3, rfl⟩

/-- An instance of `errors_propagate`: the first row fails to scan. -/
theorem errors_propagate_witness :
    (⟨.rowsScan 7, some ⟨"scan failed"⟩⟩ : Event).failed = some ⟨"scan failed"⟩
      ∧ (⟨.rowsScan 7, some ⟨"scan failed"⟩⟩ : Event).call.isClose = false
      ∧ eventsSince World.empty
          (GetRecentDownloads (okDriver 1 (cursorOf [.error ⟨"scan failed"⟩] none none))
            sampleStore u1 1 World.empty).2
        = [⟨.stmtQuery sampleStore.getRecentDL [.int 1, .str "u1"], none⟩,
            ⟨.rowsNext 7, none⟩] ++ ⟨.rowsScan 7, some ⟨"scan failed"⟩⟩ :: [⟨.rowsClose 7, none⟩]
      ∧ ((∀ x ∈ [(⟨.rowsClose 7, none⟩ : Event)], x.call.isClose = true)
        ∧ [(⟨.rowsClose 7, none⟩ : Event)].length ≤ 1
        ∧ ∃ err, (GetRecentDownloads (okDriver 1 (cursorOf [.error ⟨"scan failed"⟩] none none))
              sampleStore u1 1 World.empty).1 = .returned (none, some err)
            ∧ Cause err = .driver ⟨"scan failed"⟩) :=
  ⟨rfl, rfl, by decide,
    (errors_propagate (okDriver 1 (cursorOf [.error ⟨"scan failed"⟩] none none)) sampleStore
      World.empty [⟨.stmtQuery sampleStore.getRecentDL [.int 1, .str "u1"], none⟩,
        ⟨.rowsNext 7, none⟩] [⟨.rowsClose 7, none⟩] ⟨.rowsScan 7, some ⟨"scan failed"⟩⟩
      ⟨"scan failed"⟩ rfl rfl).2.2 u1 1 (by decide)⟩

/-! ## NewStore -/

/-- C7: NewStore issues its calls in the fixed order open, create Download
table, create UserID table, then the three preparations; every call before the
last one it issues succeeded, so it stops at the first failure and the UserID
table creation is only attempted after the Download table creation succeeded;
it returns a store and no error exactly when all six calls were issued and
succeeded, and otherwise no store and the wrapped error of the failing, last
call. -/
theorem NewStore_all_or_nothing (d : Driver) (m : Models) (database : String) (w : World) :
    (∃ db, (eventsSince w (NewStore d m database w).2).map Event.call
        <+: constructionCalls m database db)
      ∧ (∀ ev ∈ (eventsSince w (NewStore d m database w).2).dropLast, ev.failed = none)
      ∧ (2 < (eventsSince w (NewStore d m database w).2).length →
          ((eventsSince w (NewStore d m database w).2).get? 1).bind Event.failed = none)
      ∧ ((∃ st, (NewStore d m database w).1 = (some st, none))
          ↔ ((eventsSince w (NewStore d m database w).2).length = 6
              ∧ ∀ ev ∈ eventsSince w (NewStore d m database w).2, ev.failed = none))
      ∧ (¬ ((eventsSince w (NewStore d m database w).2).length = 6
              ∧ ∀ ev ∈ eventsSince w (NewStore d m database w).2, ev.failed = none)
          → ∃ c e, (eventsSince w (NewStore d m database w).2).getLast? = some ⟨c, some e⟩
              ∧ (NewStore d m database w).1 = (none, some (.withStack (.driver e)))) := by
  cases h0 : d.sqlOpen w.events "sqlite3" database with
  | error e =>
    have hr : NewStore d m database w = ((none, some (.withStack (.driver e))),
        ⟨w.events ++ [⟨.sqlOpen "sqlite3" database, some e⟩], w.openCursors⟩) := by
      simp [NewStore, h0, WithStack, World.record]
    rw [hr, @eventsSince_of_append w _ [⟨.sqlOpen "sqlite3" database, some e⟩] rfl]
    refine ⟨⟨⟨0⟩, ?_⟩, ?_, ?_, ?_, ?_⟩ <;> simp [constructionCalls]
  | ok db =>
  cases h1 : d.dbExec (w.events ++ [⟨.sqlOpen "sqlite3" database, none⟩]) db (m.Download_CreateTableIfNotExistsQueries flavor) with
  | error e =>
    have hr : NewStore d m database w = ((none, some (.withStack (.driver e))),
        ⟨w.events ++ [⟨.sqlOpen "sqlite3" database, none⟩,
        ⟨.dbExec db (m.Download_CreateTableIfNotExistsQueries flavor), some e⟩], w.openCursors⟩) := by
      simp [NewStore, h0, h1, WithStack, World.record]
    rw [hr, @eventsSince_of_append w _ [⟨.sqlOpen "sqlite3" database, none⟩,
        ⟨.dbExec db (m.Download_CreateTableIfNotExistsQueries flavor), some e⟩] rfl]
    refine ⟨⟨db, ?_⟩, ?_, ?_, ?_, ?_⟩ <;> simp [constructionCalls]
  | ok r1 =>
  cases h2 : d.dbExec (w.events ++ [⟨.sqlOpen "sqlite3" database, none⟩,
        ⟨.dbExec db (m.Download_CreateTableIfNotExistsQueries flavor), none⟩]) db (m.UserID_CreateTableIfNotExistsQueries flavor) with
  | error e =>
    have hr : NewStore d m database w = ((none, some (.withStack (.driver e))),
        ⟨w.events ++ [⟨.sqlOpen "sqlite3" database, none⟩,
        ⟨.dbExec db (m.Download_CreateTableIfNotExistsQueries flavor), none⟩,
        ⟨.dbExec db (m.UserID_CreateTableIfNotExistsQueries flavor), some e⟩], w.openCursors⟩) := by
      simp [NewStore, h0, h1, h2, WithStack, World.record]
    rw [hr, @eventsSince_of_append w _ [⟨.sqlOpen "sqlite3" database, none⟩,
        ⟨.dbExec db (m.Download_CreateTableIfNotExistsQueries flavor), none⟩,
        ⟨.dbExec db (m.UserID_CreateTableIfNotExistsQueries flavor), some e⟩] rfl]
    refine ⟨⟨db, ?_⟩, ?_, ?_, ?_, ?_⟩ <;> simp [constructionCalls]
  | ok r2 =>
  cases h3 : d.dbPrepare (w.events ++ [⟨.sqlOpen "sqlite3" database, none⟩,
        ⟨.dbExec db (m.Download_CreateTableIfNotExistsQueries flavor), none⟩,
        ⟨.dbExec db (m.UserID_CreateTableIfNotExistsQueries flavor), none⟩]) db (m.UserID_InsertIntoPreparedStatements flavor) with
  | error e =>
    have hr : NewStore d m database w = ((none, some (.withStack (.driver e))),
        ⟨w.events ++ [⟨.sqlOpen "sqlite3" database, none⟩,
        ⟨.dbExec db (m.Download_CreateTableIfNotExistsQueries flavor), none⟩,
        ⟨.dbExec db (m.UserID_CreateTableIfNotExistsQueries flavor), none⟩,
        ⟨.dbPrepare db (m.UserID_InsertIntoPreparedStatements flavor), some e⟩], w.openCursors⟩) := by
      simp [NewStore, h0, h1, h2, h3, WithStack, World.record]
    rw [hr, @eventsSince_of_append w _ [⟨.sqlOpen "sqlite3" database, none⟩,
        ⟨.dbExec db (m.Download_CreateTableIfNotExistsQueries flavor), none⟩,
        ⟨.dbExec db (m.UserID_CreateTableIfNotExistsQueries flavor), none⟩,
        ⟨.dbPrepare db (m.UserID_InsertIntoPreparedStatements flavor), some e⟩] rfl]
    refine ⟨⟨db, ?_⟩, ?_, ?_, ?_, ?_⟩ <;> simp [constructionCalls]
  | ok uidstmt =>
  cases h4 : d.dbPrepare (w.events ++ [⟨.sqlOpen "sqlite3" database, none⟩,
        ⟨.dbExec db (m.Download_CreateTableIfNotExistsQueries flavor), none⟩,
        ⟨.dbExec db (m.UserID_CreateTableIfNotExistsQueries flavor), none⟩,
        ⟨.dbPrepare db (m.UserID_InsertIntoPreparedStatements flavor), none⟩]) db (m.Download_SelectRecentDownloads flavor) with
  | error e =>
    have hr : NewStore d m database w = ((none, some (.withStack (.driver e))),
        ⟨w.events ++ [⟨.sqlOpen "sqlite3" database, none⟩,
        ⟨.dbExec db (m.Download_CreateTableIfNotExistsQueries flavor), none⟩,
        ⟨.dbExec db (m.UserID_CreateTableIfNotExistsQueries flavor), none⟩,
        ⟨.dbPrepare db (m.UserID_InsertIntoPreparedStatements flavor), none⟩,
        ⟨.dbPrepare db (m.Download_SelectRecentDownloads flavor), some e⟩], w.openCursors⟩) := by
      simp [NewStore, h0, h1, h2, h3, h4, WithStack, World.record]
    rw [hr, @eventsSince_of_append w _ [⟨.sqlOpen "sqlite3" database, none⟩,
        ⟨.dbExec db (m.Download_CreateTableIfNotExistsQueries flavor), none⟩,
        ⟨.dbExec db (m.UserID_CreateTableIfNotExistsQueries flavor), none⟩,
        ⟨.dbPrepare db (m.UserID_InsertIntoPreparedStatements flavor), none⟩,
        ⟨.dbPrepare db (m.Download_SelectRecentDownloads flavor), some e⟩] rfl]
    refine ⟨⟨db, ?_⟩, ?_, ?_, ?_, ?_⟩ <;> simp [constructionCalls]
  | ok dlstmt =>
  cases h5 : d.dbPrepare (w.events ++ [⟨.sqlOpen "sqlite3" database, none⟩,
        ⟨.dbExec db (m.Download_CreateTableIfNotExistsQueries flavor), none⟩,
        ⟨.dbExec db (m.UserID_CreateTableIfNotExistsQueries flavor), none⟩,
        ⟨.dbPrepare db (m.UserID_InsertIntoPreparedStatements flavor), none⟩,
        ⟨.dbPrepare db (m.Download_SelectRecentDownloads flavor), none⟩]) db (m.Download_InsertIntoPreparedStatements flavor) with
  | error e =>
    have hr : NewStore d m database w = ((none, some (.withStack (.driver e))),
        ⟨w.events ++ [⟨.sqlOpen "sqlite3" database, none⟩,
        ⟨.dbExec db (m.Download_CreateTableIfNotExistsQueries flavor), none⟩,
        ⟨.dbExec db (m.UserID_CreateTableIfNotExistsQueries flavor), none⟩,
        ⟨.dbPrepare db (m.UserID_InsertIntoPreparedStatements flavor), none⟩,
        ⟨.dbPrepare db (m.Download_SelectRecentDownloads flavor), none⟩,
        ⟨.dbPrepare db (m.Download_InsertIntoPreparedStatements flavor), some e⟩], w.openCursors⟩) := by
      simp [NewStore, h0, h1, h2, h3, h4, h5, WithStack, World.record]
    rw [hr, @eventsSince_of_append w _ [⟨.sqlOpen "sqlite3" database, none⟩,
        ⟨.dbExec db (m.Download_CreateTableIfNotExistsQueries flavor), none⟩,
        ⟨.dbExec db (m.UserID_CreateTableIfNotExistsQueries flavor), none⟩,
        ⟨.dbPrepare db (m.UserID_InsertIntoPreparedStatements flavor), none⟩,
        ⟨.dbPrepare db (m.Download_SelectRecentDownloads flavor), none⟩,
        ⟨.dbPrepare db (m.Download_InsertIntoPreparedStatements flavor), some e⟩] rfl]
    refine ⟨⟨db, ?_⟩, ?_, ?_, ?_, ?_⟩ <;> simp [constructionCalls]
  | ok savedlstmt =>
  have hr : NewStore d m database w = ((some ⟨db, uidstmt, dlstmt, savedlstmt⟩, none),
      ⟨w.events ++ [⟨.sqlOpen "sqlite3" database, none⟩,
        ⟨.dbExec db (m.Download_CreateTableIfNotExistsQueries flavor), none⟩,
        ⟨.dbExec db (m.UserID_CreateTableIfNotExistsQueries flavor), none⟩,
        ⟨.dbPrepare db (m.UserID_InsertIntoPreparedStatements flavor), none⟩,
        ⟨.dbPrepare db (m.Download_SelectRecentDownloads flavor), none⟩,
        ⟨.dbPrepare db (m.Download_InsertIntoPreparedStatements flavor), none⟩], w.openCursors⟩) := by
    simp [NewStore, h0, h1, h2, h3, h4, h5, World.record]
  rw [hr, @eventsSince_of_append w _ [⟨.sqlOpen "sqlite3" database, none⟩,
        ⟨.dbExec db (m.Download_CreateTableIfNotExistsQueries flavor), none⟩,
        ⟨.dbExec db (m.UserID_CreateTableIfNotExistsQueries flavor), none⟩,
        ⟨.dbPrepare db (m.UserID_InsertIntoPreparedStatements flavor), none⟩,
        ⟨.dbPrepare db (m.Download_SelectRecentDownloads flavor), none⟩,
        ⟨.dbPrepare db (m.Download_InsertIntoPreparedStatements flavor), none⟩] rfl]
  refine ⟨⟨db, ?_⟩, ?_, ?_, ?_, ?_⟩ <;> simp [constructionCalls]

/-- The statements of a store built by NewStore are the handles the storage
layer returned when preparing the user-id insert, the recent-downloads select
and the download insert, in that order of preparation. -/
theorem NewStore_handles (d : Driver) (m : Models) (database : String) (w : World)
    (st : Store) (err : Option GoError) (h : (NewStore d m database w).1 = (some st, err)) :
    ∃ h3 h4 h5 : List Event,
      d.dbPrepare h3 st.db (m.UserID_InsertIntoPreparedStatements flavor) = .ok st.userIDstmt
      ∧ d.dbPrepare h4 st.db (m.Download_SelectRecentDownloads flavor) = .ok st.getRecentDL
      ∧ d.dbPrepare h5 st.db (m.Download_InsertIntoPreparedStatements flavor) = .ok st.saveDL
      ∧ h3 <+: h4 ∧ h4 <+: h5 := by
  cases h0 : d.sqlOpen w.events "sqlite3" database with
  | error e => simp [NewStore, h0, WithStack] at h
  | ok db =>
  cases h1 : d.dbExec (w.events ++ [⟨.sqlOpen "sqlite3" database, none⟩]) db (m.Download_CreateTableIfNotExistsQueries flavor) with
  | error e => simp [NewStore, h0, h1, WithStack] at h
  | ok r1 =>
  cases h2 : d.dbExec (w.events ++ [⟨.sqlOpen "sqlite3" database, none⟩,
        ⟨.dbExec db (m.Download_CreateTableIfNotExistsQueries flavor), none⟩]) db (m.UserID_CreateTableIfNotExistsQueries flavor) with
  | error e => simp [NewStore, h0, h1, h2, WithStack] at h
  | ok r2 =>
  cases h3 : d.dbPrepare (w.events ++ [⟨.sqlOpen "sqlite3" database, none⟩,
        ⟨.dbExec db (m.Download_CreateTableIfNotExistsQueries flavor), none⟩,
        ⟨.dbExec db (m.UserID_CreateTableIfNotExistsQueries flavor), none⟩]) db (m.UserID_InsertIntoPreparedStatements flavor) with
  | error e => simp [NewStore, h0, h1, h2, h3, WithStack] at h
  | ok uidstmt =>
  cases h4 : d.dbPrepare (w.events ++ [⟨.sqlOpen "sqlite3" database, none⟩,
        ⟨.dbExec db (m.Download_CreateTableIfNotExistsQueries flavor), none⟩,
        ⟨.dbExec db (m.UserID_CreateTableIfNotExistsQueries flavor), none⟩,
        ⟨.dbPrepare db (m.UserID_InsertIntoPreparedStatements flavor), none⟩]) db (m.Download_SelectRecentDownloads flavor) with
  | error e => simp [NewStore, h0, h1, h2, h3, h4, WithStack] at h
  | ok dlstmt =>
  cases h5 : d.dbPrepare (w.events ++ [⟨.sqlOpen "sqlite3" database, none⟩,
        ⟨.dbExec db (m.Download_CreateTableIfNotExistsQueries flavor), none⟩,
        ⟨.dbExec db (m.UserID_CreateTableIfNotExistsQueries flavor), none⟩,
        ⟨.dbPrepare db (m.UserID_InsertIntoPreparedStatements flavor), none⟩,
        ⟨.dbPrepare db (m.Download_SelectRecentDownloads flavor), none⟩]) db (m.Download_InsertIntoPreparedStatements flavor) with
  | error e => simp [NewStore, h0, h1, h2, h3, h4, h5, WithStack] at h
  | ok savedlstmt =>
  simp [NewStore, h0, h1, h2, h3, h4, h5] at h
  obtain ⟨hst, -⟩ := h
  subst hst
  exact ⟨_, _, _, h3, h4, h5, by simp, by simp⟩

end Sqlite
